import Mathlib

/-!
Verification development for the natural-language-to-SQL pipeline of the
`fintech-agent` repository.  The definitions below are a shallow embedding of
the Python sources:

  * `src/dev/utils/sql_executor.py`   (class `SQLExecutor`)
  * `src/dev/node/sql_agent_node.py`  (the workflow nodes and routers)
  * `src/dev/agent/sql_agent.py`      (graph wiring and `DatabaseAgent`)
  * `src/dev/state/graph_state.py`    (`DatabaseGraphState`)

External collaborators (the language-model provider and the pooled database
engine) are modelled as an explicit environment record of functions; wall-clock
timing and file logging are not modelled.  Python strings are modelled as Lean
`String`s, with Python's `str` helpers re-implemented over `List Char` so that
every definition is executable by the kernel.

Several module-level helper functions in `sql_agent_node.py` carry a vestigial
`self` first parameter (they were extracted from a class) while every call site
passes arguments positionally without it; the embedding drops that vestigial
parameter and binds the call-site arguments to the remaining parameters, which
is the consistent intent of all call sites.
-/

namespace FintechAgent

/-! ## Python string primitives -/

/-- Python's `\s` / `str.split()` / `str.strip()` whitespace class
(ASCII portion, which is all that the pipeline's inputs use). -/
def pyIsSpace (c : Char) : Bool :=
  c = ' ' || c = '\t' || c = '\n' || c = '\r' || c = '\x0b' || c = '\x0c'

/-- Prefix test on character lists. -/
def isPrefixOfL : List Char → List Char → Bool
  | [], _ => true
  | _ :: _, [] => false
  | a :: as, b :: bs => a = b && isPrefixOfL as bs

/-- Substring containment on character lists (Python's `needle in hay`). -/
def containsL (needle : List Char) : List Char → Bool
  | [] => isPrefixOfL needle []
  | c :: rest => isPrefixOfL needle (c :: rest) || containsL needle rest

/-- Python `needle in hay` on strings. -/
def strContains (hay needle : String) : Bool :=
  containsL needle.data hay.data

/-- Python `str.upper()` (ASCII). -/
def pyUpper (s : String) : String :=
  String.mk (s.data.map Char.toUpper)

/-- Python `str.lower()` (ASCII). -/
def pyLower (s : String) : String :=
  String.mk (s.data.map Char.toLower)

/-- Python `str.replace` (left-to-right, non-overlapping) on character lists,
on explicit fuel so that the definition is structurally recursive (every
iteration consumes at least one character, so fuel equal to the subject's
length is always enough; the nonempty patterns used here never hit the
zero-fuel fallback). -/
def replaceLAux (pat repl : List Char) : Nat → List Char → List Char
  | _, [] => []
  | 0, s => s
  | Nat.succ fuel, c :: rest =>
    if pat ≠ [] ∧ isPrefixOfL pat (c :: rest) then
      repl ++ replaceLAux pat repl fuel ((c :: rest).drop pat.length)
    else
      c :: replaceLAux pat repl fuel rest

/-- Python `str.replace` on strings. -/
def pyReplace (s pat repl : String) : String :=
  String.mk (replaceLAux pat.data repl.data s.data.length s.data)

/-- Python `str.strip()`. -/
def pyStrip (s : String) : String :=
  String.mk (((s.data.dropWhile pyIsSpace).reverse.dropWhile pyIsSpace).reverse)

/-- Python `str.endswith`. -/
def pyEndsWith (s suffix : String) : Bool :=
  isPrefixOfL suffix.data.reverse s.data.reverse

/-- Helper for `pySplit`: accumulate the current word (reversed). -/
def splitWsAux : List Char → List Char → List String
  | acc, [] => if acc.isEmpty then [] else [String.mk acc.reverse]
  | acc, c :: rest =>
    if pyIsSpace c then
      if acc.isEmpty then splitWsAux [] rest
      else String.mk acc.reverse :: splitWsAux [] rest
    else splitWsAux (c :: acc) rest

/-- Python `str.split()` (split on whitespace runs, dropping empties). -/
def pySplit (s : String) : List String :=
  splitWsAux [] s.data

/-- Helper for `collapseWs`: the Boolean records whether the previous
character was whitespace (so a run emits a single `' '`). -/
def collapseWsAux : Bool → List Char → List Char
  | _, [] => []
  | prevWs, c :: rest =>
    if pyIsSpace c then
      if prevWs then collapseWsAux true rest
      else ' ' :: collapseWsAux true rest
    else c :: collapseWsAux false rest

/-- Python `re.sub(r'\s+', ' ', s)`. -/
def collapseWs (s : String) : String :=
  String.mk (collapseWsAux false s.data)

/-- Python `s[:n]` on strings. -/
def takeChars (n : Nat) (s : String) : String :=
  String.mk (s.data.take n)

/-! ## The deny-list pattern matcher

`SQLExecutor._check_sql_security` matches seven `re.search(pattern, sql,
re.IGNORECASE)` patterns.  The patterns use only literals, `\s+`, `\s*`,
a single alternation group, and `.*`; a tiny matcher for exactly these
constructs is embedded here.  Case-insensitivity is realised by matching
upper-case literals against the upper-cased subject (the patterns are pure
ASCII). -/

/-- The regex fragments used by the deny-list patterns. -/
inductive Pat where
  /-- a literal string -/
  | lit (s : List Char) : Pat
  /-- fragment `\s+` -/
  | ws1 : Pat
  /-- fragment `\s*` -/
  | ws0 : Pat
  /-- fragment `.*` (any characters except newline) -/
  | anychars : Pat
  /-- an alternation of literals such as `(TABLE|DATABASE|INDEX)` -/
  | alts (ls : List (List Char)) : Pat
deriving Repr

/-- All tails of `s` reachable by dropping leading whitespace characters
(the candidate continuations after `\s*`). -/
def wsTails : List Char → List (List Char)
  | [] => [[]]
  | c :: rest => (c :: rest) :: (if pyIsSpace c then wsTails rest else [])

/-- All tails of `s` reachable by dropping non-newline characters
(the candidate continuations after `.*`). -/
def dotStarTails : List Char → List (List Char)
  | [] => [[]]
  | c :: rest => (c :: rest) :: (if c = '\n' then [] else dotStarTails rest)

/-- Match a sequence of pattern items at the start of `s` (a match may end
before the end of `s`, as with `re.search`). -/
def matchSeq : List Pat → List Char → Bool
  | [], _ => true
  | .lit l :: ps, s => isPrefixOfL l s && matchSeq ps (s.drop l.length)
  | .ws1 :: ps, s =>
    match s with
    | [] => false
    | c :: rest => pyIsSpace c && (wsTails rest).any (fun t => matchSeq ps t)
  | .ws0 :: ps, s => (wsTails s).any (fun t => matchSeq ps t)
  | .anychars :: ps, s => (dotStarTails s).any (fun t => matchSeq ps t)
  | .alts ls :: ps, s =>
    ls.any (fun l => isPrefixOfL l s && matchSeq ps (s.drop l.length))

/-- Python `re.search`: try the pattern at every start position of the subject. -/
def reSearch (ps : List Pat) (s : List Char) : Bool :=
  (s.tails).any (fun t => matchSeq ps t)

/-! ## Data model (`graph_state.py` and the result dictionaries) -/

/-- The `intent` dictionary built by `parse_user_intent`.  The
`requires_human_approval` key is only present when a mutation branch fires,
hence an `Option`. -/
structure ParsedIntent where
  action : String := "query"
  target : String := "data"
  complexity : String := "simple"
  tables : List String := []
  requires_human_approval : Option Bool := none
deriving DecidableEq, Repr

/-- The `validation_result` dictionary of `SQLExecutor.validate_sql`. -/
structure ValidationResult where
  is_valid : Bool := false
  errors : List String := []
  warnings : List String := []
  estimated_cost : Nat := 0
  requires_human_approval : Bool := false
deriving DecidableEq, Repr

/-- One result row: an ordered column-name/value association list
(`dict(row)` preserves the engine's column order). -/
abbrev Row := List (String × String)

/-- A row set returned by the database engine for one statement. -/
structure QueryResult where
  columns : List String := []
  rows : List Row := []
deriving DecidableEq, Repr

/-- The `result` dictionary of `SQLExecutor.execute_sql`.  Wall-clock
`execution_time` is not modelled and stays `0`. -/
structure ExecResult where
  success : Bool := false
  data : Option (List Row) := none
  row_count : Nat := 0
  execution_time : Nat := 0
  columns : List String := []
  error : Option String := none
deriving DecidableEq, Repr

/-- `DatabaseGraphState` (`graph_state.py`).  `db_engine` models whether a
live engine handle is attached (the nodes only branch on its truthiness);
`db_metadata` is an opaque snapshot blob (`none` models the initial `{}` or
the `{"error": ...}` dictionary stored on introspection failure — nothing in
the modelled pipeline reads its contents).  Fields never read or written by
the modelled nodes (`messages`, `selected_tables`, `sql_query`,
`validated_sql`, `execution_plan`, `visualization_data`, `db_type`) are
omitted. -/
structure DatabaseGraphState where
  user_input : String := ""
  session_id : String := ""
  db_connection_string : String := ""
  db_engine : Bool := false
  db_metadata : Option String := none
  sql_type : String := ""
  sql_validation_result : Option ValidationResult := none
  sql_execution_result : Option ExecResult := none
  sql_error : String := ""
  requires_human_approval : Bool := false
  human_approved : Bool := false
  retry_count : Nat := 0
  max_retries : Nat := 3
  parsed_intent : Option ParsedIntent := none
  generated_sql : String := ""
  final_answer : String := ""
deriving DecidableEq, Repr

/-- The external collaborators: the language-model provider and the pooled
database engine.  Each field abstracts one call the pipeline makes; prompt
assembly is folded into the provider functions. -/
structure Env where
  /-- `db_manager.get_table_metadata(engine, tables)`: introspection,
  producing an opaque snapshot blob or raising. -/
  get_table_metadata : Option (List String) → Except String String
  /-- `format_schema_summary(metadata)`: the schema summary written to
  `final_answer` for describe intents (pure formatting over the blob). -/
  schema_summary : String → String
  /-- `model.invoke(prompt).content` for SQL generation, given the user
  question (the prompt is a pure function of the state). -/
  generate_llm : String → Except String String
  /-- `model.invoke(prompt).content` for SQL correction, given the original
  SQL and the accumulated error messages. -/
  correct_llm : String → List String → Except String String
  /-- the syntax probe (`EXPLAIN ...` / `PREPARE test_stmt AS ...`):
  `some err` models the raised exception's message, `none` success. -/
  probe : String → Option String
  /-- the row count of `EXPLAIN sql` used by cost estimation
  (`none` models an exception). -/
  explain_rows : String → Option Nat
  /-- `conn.execute(text(sql))` followed by `fetchall()`. -/
  run_query : String → Except String QueryResult

/-- An entry of `SQLExecutor.human_approval_queue`
(`add_to_approval_queue` stores a deep copy of the session state). -/
structure ApprovalItem where
  sql : String
  reason : String
  state : DatabaseGraphState
  timestamp : String
  session_id : String
deriving DecidableEq, Repr

/-! ## `SQLExecutor` (`sql_executor.py`) -/

/-- The deny-list of `SQLExecutor._check_sql_security`, paired with the
pattern source text used in the recorded message. -/
def dangerous_patterns : List (String × List Pat) :=
  [ ("DROP\\s+(TABLE|DATABASE|INDEX)",
      [.lit "DROP".data, .ws1, .alts ["TABLE".data, "DATABASE".data, "INDEX".data]]),
    ("TRUNCATE\\s+TABLE", [.lit "TRUNCATE".data, .ws1, .lit "TABLE".data]),
    ("ALTER\\s+TABLE.*DROP",
      [.lit "ALTER".data, .ws1, .lit "TABLE".data, .anychars, .lit "DROP".data]),
    ("GRANT\\s+.*TO", [.lit "GRANT".data, .ws1, .anychars, .lit "TO".data]),
    ("REVOKE\\s+.*FROM", [.lit "REVOKE".data, .ws1, .anychars, .lit "FROM".data]),
    (";\\s*--", [.lit ";".data, .ws0, .lit "--".data]),
    ("UNION\\s+SELECT.*FROM",
      [.lit "UNION".data, .ws1, .lit "SELECT".data, .anychars, .lit "FROM".data]) ]

/-- `SQLExecutor._check_sql_security`: one message per matching pattern
(`re.IGNORECASE` realised by upper-casing the subject). -/
def check_sql_security (sql : String) : List String :=
  dangerous_patterns.filterMap fun p =>
    if reSearch p.2 (pyUpper sql).data then some ("检测到危险操作: " ++ p.1) else none

/-- The containment-based type detection embedded in
`SQLExecutor.validate_sql` (step 2; note: no DDL branch there). -/
def validator_detected_type (sql : String) : String :=
  let u := pyUpper sql
  if strContains u "SELECT" then "SELECT"
  else if strContains u "INSERT" then "INSERT"
  else if strContains u "UPDATE" then "UPDATE"
  else if strContains u "DELETE" then "DELETE"
  else "OTHER"

/-- `SQLExecutor._estimate_execution_cost`. -/
def estimate_execution_cost (env : Env) (sql : String) : Nat :=
  match env.explain_rows ("EXPLAIN " ++ sql) with
  | some n =>
    let cost := n * 10
    let cost := if !strContains (pyUpper sql) "WHERE" then cost * 2 else cost
    min cost 1000
  | none => 50

/-- `SQLExecutor.validate_sql`. -/
def validate_sql (env : Env) (sql0 : String) (sql_type : String) : ValidationResult :=
  let sql := pyStrip sql0
  if sql = "" then
    { is_valid := false, errors := ["SQL语句为空"] }
  else
    let sql_upper := pyUpper sql
    let detected_type := validator_detected_type sql
    let mismatch_warnings :=
      if sql_type ≠ "" ∧ sql_type ≠ detected_type then
        ["SQL类型不匹配: 声明为" ++ sql_type ++ "，检测为" ++ detected_type]
      else []
    let security_errors := check_sql_security sql
    let probe_stmt :=
      if strContains sql_upper "SELECT" then "EXPLAIN " ++ sql
      else "PREPARE test_stmt AS " ++ sql
    let syntax_errors :=
      match env.probe probe_stmt with
      | some e => ["SQL语法错误: " ++ e]
      | none => []
    let requires := detected_type ∈ (["INSERT", "UPDATE", "DELETE"] : List String)
    let dml_warnings := if requires then ["DML操作需要人工审核"] else []
    let errors := security_errors ++ syntax_errors
    { is_valid := errors.isEmpty
      errors := errors
      warnings := mismatch_warnings ++ dml_warnings
      estimated_cost := estimate_execution_cost env sql
      requires_human_approval := requires }

/-- `SQLExecutor.execute_sql`.  Besides the result dictionary, the embedding
returns the list of statements actually submitted to the engine (always a
single statement here — the method has no approval or validity guard), so
that execution/non-execution is observable. -/
def execute_sql (env : Env) (sql0 : String) (limit : Nat) : ExecResult × List String :=
  let sql :=
    if strContains (pyUpper sql0) "SELECT" && !strContains (pyUpper sql0) "LIMIT" then
      sql0 ++ " LIMIT " ++ toString limit
    else sql0
  match env.run_query sql with
  | .ok qr =>
    ({ success := true, data := some qr.rows, row_count := qr.rows.length,
       columns := qr.columns, error := none }, [sql])
  | .error e =>
    ({ success := false, data := none, row_count := 0, columns := [],
       error := some e }, [sql])

/-- `SQLExecutor.add_to_approval_queue`: append and return the new index.
The timestamp is passed in (`datetime.now().isoformat()`). -/
def add_to_approval_queue (queue : List ApprovalItem) (sql reason : String)
    (state : DatabaseGraphState) (now : String) : List ApprovalItem × Nat :=
  (queue ++ [{ sql := sql, reason := reason, state := state, timestamp := now,
               session_id := state.session_id }], queue.length)

/-! ## Workflow nodes (`sql_agent_node.py`) -/

/-- Keyword lists of `parse_user_intent` (the `any(word in user_input ...)`
tests, applied to the lower-cased input). -/
def query_keywords : List String := ["查询", "查找", "获取", "select", "find"]

/-- Mutation keywords of the `add`/insert branch. -/
def add_keywords : List String := ["添加", "插入", "insert", "add"]

/-- Mutation keywords of the update branch. -/
def update_keywords : List String := ["更新", "修改", "update", "modify"]

/-- Mutation keywords of the delete branch. -/
def delete_keywords : List String := ["删除", "delete", "remove"]

/-- Keywords of the describe branch. -/
def describe_keywords : List String := ["表结构", "schema", "结构", "describe"]

/-- Keywords of the explain branch. -/
def explain_keywords : List String := ["解释", "分析", "explain", "analyze"]

/-- Keywords of the complex-complexity branch. -/
def complex_keywords : List String := ["复杂", "关联", "join", "统计", "汇总"]

/-- Keywords of the simple-complexity branch. -/
def simple_keywords : List String := ["简单", "基本", "单表"]

/-- `any(word in user_input for word in kws)`. -/
def anyKeyword (user_input : String) (kws : List String) : Bool :=
  kws.any fun k => strContains user_input k

/-- The table-name extraction loop of `parse_user_intent`: for each present
table keyword, scan the whitespace-split words; a word containing the
keyword contributes the following word when that is longer than one
character. -/
def extract_tables (user_input : String) : List String :=
  (["表", "table", "数据表"] : List String).foldl
    (fun acc keyword =>
      if strContains user_input keyword then
        let words := pySplit user_input
        acc ++ words.enum.filterMap fun iw =>
          if strContains iw.2 keyword ∧ iw.1 + 1 < words.length then
            match words.get? (iw.1 + 1) with
            | some potential => if potential.length > 1 then some potential else none
            | none => none
          else none
      else acc)
    []

/-- Node 1, `parse_user_intent`. -/
def parse_user_intent (state : DatabaseGraphState) : DatabaseGraphState :=
  let user_input := pyLower state.user_input
  let base : ParsedIntent := {}
  let intent :=
    if anyKeyword user_input query_keywords then
      { base with action := "query" }
    else if anyKeyword user_input add_keywords then
      { base with action := "modify", requires_human_approval := some true }
    else if anyKeyword user_input update_keywords then
      { base with action := "modify", requires_human_approval := some true }
    else if anyKeyword user_input delete_keywords then
      { base with action := "modify", requires_human_approval := some true }
    else if anyKeyword user_input describe_keywords then
      { base with action := "describe", target := "schema" }
    else if anyKeyword user_input explain_keywords then
      { base with action := "explain" }
    else base
  let intent := { intent with tables := extract_tables user_input }
  let intent :=
    { intent with
      complexity :=
        if anyKeyword user_input complex_keywords then "complex"
        else if anyKeyword user_input simple_keywords then "simple"
        else "moderate" }
  { state with parsed_intent := some intent }

/-- The `state.parsed_intent and state.parsed_intent.get("action")` idiom:
the intent's action, or `""` when the intent is absent. -/
def intent_action (state : DatabaseGraphState) : String :=
  match state.parsed_intent with
  | some it => it.action
  | none => ""

/-- Node 2, `analyze_database_schema`. -/
def analyze_database_schema (env : Env) (state : DatabaseGraphState) :
    DatabaseGraphState :=
  if !state.db_engine then state
  else
    let tables :=
      match state.parsed_intent with
      | some it => if it.tables ≠ [] then some it.tables else none
      | none => none
    match env.get_table_metadata tables with
    | .ok metadata =>
      let state :=
        if intent_action state = "describe" then
          { state with final_answer := env.schema_summary metadata }
        else state
      { state with db_metadata := some metadata }
    | .error _ => { state with db_metadata := none }

/-- `clean_generated_sql`: strip code fences, strip, collapse whitespace,
ensure a trailing semicolon. -/
def clean_generated_sql (sql0 : String) : String :=
  let sql := pyStrip (pyReplace (pyReplace sql0 "```sql" "") "```" "")
  let sql := collapseWs sql
  if pyEndsWith sql ";" then sql else sql ++ ";"

/-- `detect_sql_type` (the node-side detection, which also has a DDL
branch). -/
def detect_sql_type (sql : String) : String :=
  let sql_upper := pyUpper sql
  if strContains sql_upper "SELECT" then "SELECT"
  else if strContains sql_upper "INSERT" then "INSERT"
  else if strContains sql_upper "UPDATE" then "UPDATE"
  else if strContains sql_upper "DELETE" then "DELETE"
  else if strContains sql_upper "CREATE" || strContains sql_upper "ALTER"
       || strContains sql_upper "DROP" then "DDL"
  else "OTHER"

/-- Node 3, `generate_sql_query`. -/
def generate_sql_query (env : Env) (state : DatabaseGraphState) :
    DatabaseGraphState :=
  if intent_action state = "describe" then state
  else
    match env.generate_llm state.user_input with
    | .ok content =>
      let generated_sql := clean_generated_sql (pyStrip content)
      { state with generated_sql := generated_sql,
                   sql_type := detect_sql_type generated_sql }
    | .error e => { state with sql_error := "SQL生成失败: " ++ e }

/-- Node 4, `validate_sql_statement`. -/
def validate_sql_statement (env : Env) (state : DatabaseGraphState) :
    DatabaseGraphState :=
  if state.generated_sql = "" then state
  else
    let vr := validate_sql env state.generated_sql state.sql_type
    { state with sql_validation_result := some vr,
                 requires_human_approval := vr.requires_human_approval }

/-- Node 5, `check_human_approval`.  The node constructs a fresh
`SQLExecutor(DatabaseConnectionManager())` whose `human_approval_queue`
starts empty; the second component is that local queue after the enqueue
(the object is dropped when the node returns — it is not the agent's
executor). -/
def check_human_approval (now : String) (state : DatabaseGraphState) :
    DatabaseGraphState × List ApprovalItem :=
  if state.requires_human_approval && !state.human_approved then
    let fresh_queue : List ApprovalItem := []
    let enq := add_to_approval_queue fresh_queue state.generated_sql
      "DML操作需要人工审核" state now
    let reason :=
      (match state.sql_validation_result with
       | some vr => vr.warnings
       | none => ["DML操作"]).headD ""
    let answer :=
      "您的SQL操作需要人工审核，已加入审核队列（编号: " ++ toString enq.2 ++ "）\n\n" ++
      "**待审核SQL**:\n```sql\n" ++ state.generated_sql ++ "\n```\n\n" ++
      "**审核原因**: " ++ reason ++ "\n\n" ++
      "请等待管理员审核后继续执行。"
    ({ state with final_answer := answer }, enq.1)
  else (state, [])

/-- `format_execution_result` (the `execution_time` float formatting is not
modelled; the modelled time is always `0`). -/
def format_execution_result (result : ExecResult) : String :=
  if !result.success then "执行失败: " ++ (result.error.getD "未知错误")
  else
    let row_count := result.row_count
    let columns := result.columns
    let data := result.data.getD []
    let response :=
      "✅ 查询成功！\n\n**统计信息**:\n" ++
      "- 返回行数: " ++ toString row_count ++ "\n" ++
      "- 执行时间: " ++ toString result.execution_time ++ "秒\n" ++
      "- 查询列数: " ++ toString columns.length ++ "\n\n"
    if row_count > 0 then
      let header := "| " ++ String.intercalate " | " columns ++ " |"
      let separator := "|" ++ String.intercalate "|" (columns.map fun _ => "---") ++ "|"
      let body := (data.take 10).foldl
        (fun acc row =>
          let row_values := columns.map fun c =>
            takeChars 50 ((row.lookup c).getD "")
          acc ++ "| " ++ String.intercalate " | " row_values ++ " |\n")
        (response ++ "**数据预览** (最多显示10行):\n\n" ++ header ++ "\n" ++ separator ++ "\n")
      if row_count > 10 then
        body ++ "\n... 还有 " ++ toString (row_count - 10) ++ " 行数据未显示\n"
      else body
    else response ++ "**查询结果为空**\n"

/-- Node 6, `execute_sql_query`.  The second component is the list of
statements submitted to the engine during the node (empty when the node
returns without executing). -/
def execute_sql_query (env : Env) (state : DatabaseGraphState) :
    DatabaseGraphState × List String :=
  if state.generated_sql = "" then (state, [])
  else if state.requires_human_approval && !state.human_approved then (state, [])
  else
    let res := execute_sql env state.generated_sql 1000
    let state := { state with sql_execution_result := some res.1 }
    if res.1.success then
      ({ state with final_answer := format_execution_result res.1 }, res.2)
    else
      ({ state with sql_error := res.1.error.getD "未知错误" }, res.2)

/-- The error condition shared by `self_correction_loop` and
`should_retry_sql`: a recorded execution error or a failed validation. -/
def has_sql_error (state : DatabaseGraphState) : Bool :=
  state.sql_error ≠ "" ||
    (match state.sql_validation_result with
     | some vr => !vr.is_valid
     | none => false)

/-- The accumulated error messages collected by `self_correction_loop`. -/
def correction_error_messages (state : DatabaseGraphState) : List String :=
  (if state.sql_error ≠ "" then [state.sql_error] else []) ++
    (match state.sql_validation_result with
     | some vr => vr.errors
     | none => [])

/-- `correct_sql_with_errors`: delegate to the correction model and clean;
on provider failure return the original statement. -/
def correct_sql_with_errors (env : Env) (original_sql : String)
    (errors : List String) : String :=
  match env.correct_llm original_sql errors with
  | .ok content => clean_generated_sql (pyStrip content)
  | .error _ => original_sql

/-- Node 7, `self_correction_loop`. -/
def self_correction_loop (env : Env) (state : DatabaseGraphState) :
    DatabaseGraphState :=
  if state.retry_count ≥ state.max_retries then state
  else if has_sql_error state then
    let state := { state with retry_count := state.retry_count + 1 }
    let corrected := correct_sql_with_errors env state.generated_sql
      (correction_error_messages state)
    if corrected ≠ "" ∧ corrected ≠ state.generated_sql then
      { state with generated_sql := corrected, sql_error := "" }
    else state
  else state

/-- Node 8, `finalize_response` (the `log_interaction` file write is not
modelled). -/
def finalize_response (state : DatabaseGraphState) : DatabaseGraphState :=
  let state :=
    if state.final_answer = "" then
      if state.sql_error ≠ "" then
        { state with final_answer :=
            "抱歉，处理您的请求时出现错误:\n\n**错误信息**: " ++ state.sql_error ++
            "\n\n请检查您的查询或联系管理员。" }
      else if state.generated_sql ≠ "" then
        { state with final_answer :=
            "SQL已生成但未执行:\n\n```sql\n" ++ state.generated_sql ++ "\n```\n\n" ++
            "类型: " ++ state.sql_type ++ "\n状态: " ++
            (if (state.sql_validation_result.map (·.is_valid)).getD false
             then "已验证" else "未验证") }
      else { state with final_answer := "未能处理您的请求，请提供更详细的信息。" }
    else state
  match state.sql_execution_result with
  | some r =>
    if r.success then
      { state with final_answer := state.final_answer ++
          "\n\n---\n**执行统计**:\n- 返回行数: " ++ toString r.row_count ++
          "\n- 执行时间: " ++ toString r.execution_time ++
          "秒\n- 查询列数: " ++ toString r.columns.length }
    else state
  | none => state

/-! ## Conditional routers (`sql_agent_node.py`, section 6) -/

/-- `should_require_human_approval`. -/
def should_require_human_approval (state : DatabaseGraphState) : String :=
  if state.requires_human_approval && !state.human_approved then "require_approval"
  else "continue_execution"

/-- `should_retry_sql`. -/
def should_retry_sql (state : DatabaseGraphState) : String :=
  if has_sql_error state && state.retry_count < state.max_retries then "retry"
  else "continue"

/-- `is_schema_query`. -/
def is_schema_query (state : DatabaseGraphState) : String :=
  if intent_action state = "describe" then "schema_query" else "data_query"

/-! ## The compiled graph (`build_database_agent` in `sql_agent.py`)

The wiring is: `START → parse_intent → analyze_schema → generate_sql →
validate_sql`; then `should_require_human_approval` routes to
`check_approval` or `execute_sql`; after `check_approval` the session ends
(waiting) unless `human_approved` already holds; after `execute_sql`,
`should_retry_sql` routes to `self_correction → validate_sql` or to
`finalize → END`.  (`is_schema_query` routes both of its outcomes to
`analyze_schema`.)  The loop is run on explicit fuel; `none` means the fuel
was exhausted, and the termination theorem shows sufficient fuel always
yields `some`. -/

/-- A finished run: the final session state, the statements submitted to the
engine by `execute_sql_query`, and the approval tickets enqueued by
`check_human_approval` into its node-local executors (in order). -/
abbrev RunOutcome := DatabaseGraphState × List String × List ApprovalItem

/-- The `execute_sql → {self_correction → validate_sql | finalize}` fragment
of the compiled graph; `recur` is the continuation back into the validation
phase for the next loop iteration. -/
def run_exec_phase (env : Env) (sv : DatabaseGraphState)
    (recur : DatabaseGraphState → Option RunOutcome) : Option RunOutcome :=
  let ex := execute_sql_query env sv
  if should_retry_sql ex.1 = "retry" then
    match recur (self_correction_loop env ex.1) with
    | some r => some (r.1, ex.2 ++ r.2.1, r.2.2)
    | none => none
  else some (finalize_response ex.1, ex.2, [])

/-- The `validate_sql → {check_approval | execute_sql} → ... → END` fragment
of the compiled graph. -/
def run_from_validate (env : Env) (now : String) :
    Nat → DatabaseGraphState → Option RunOutcome
  | 0, _ => none
  | Nat.succ fuel, s =>
    let s1 := validate_sql_statement env s
    if should_require_human_approval s1 = "require_approval" then
      let ch := check_human_approval now s1
      if ch.1.human_approved then
        match run_exec_phase env ch.1 (fun s' => run_from_validate env now fuel s') with
        | some r => some (r.1, r.2.1, ch.2 ++ r.2.2)
        | none => none
      else some (ch.1, [], ch.2)
    else run_exec_phase env s1 (fun s' => run_from_validate env now fuel s')

/-- A full pass over the compiled graph from `parse_intent`.  The fuel
`max_retries + 1` dominates `max_retries - retry_count + 1`, which the
termination theorem shows is always enough. -/
def run_graph (env : Env) (now : String) (s0 : DatabaseGraphState) :
    Option RunOutcome :=
  let s1 := parse_user_intent s0
  let s2 := analyze_database_schema env s1
  let s3 := generate_sql_query env s2
  run_from_validate env now (s3.max_retries + 1) s3

/-! ## `DatabaseAgent` (`sql_agent.py`) -/

/-- The `initial_state` dictionary of `DatabaseAgent.ask` (`retry_count=0`,
`max_retries=3`; `db_engine` models whether the agent holds a live
connection). -/
def initial_ask_state (question session_id db_connection_string : String)
    (db_engine : Bool) : DatabaseGraphState :=
  { user_input := question, session_id := session_id,
    db_connection_string := db_connection_string, db_engine := db_engine,
    retry_count := 0, max_retries := 3 }

/-- `DatabaseAgent.ask`: invoke the graph on a fresh initial state.  The
agent's own `sql_executor.human_approval_queue` is passed through untouched:
`ask` never references it, and the `check_human_approval` node enqueues into
a freshly constructed `SQLExecutor` that is dropped when the node returns. -/
def agent_ask (env : Env) (now : String) (queue : List ApprovalItem)
    (question session_id : String) (db_engine : Bool) :
    Option RunOutcome × List ApprovalItem :=
  (run_graph env now (initial_ask_state question session_id "" db_engine), queue)

/-- One entry of `DatabaseAgent.get_pending_approvals`. -/
structure PendingSummary where
  index : Nat
  sql : String
  reason : String
  timestamp : String
  session_id : String
deriving DecidableEq, Repr

/-- `DatabaseAgent.get_pending_approvals` over the agent's queue. -/
def get_pending_approvals (queue : List ApprovalItem) : List PendingSummary :=
  queue.enum.map fun p =>
    { index := p.1, sql := p.2.sql, reason := p.2.reason,
      timestamp := p.2.timestamp, session_id := p.2.session_id }

/-- The session state handed to `app.invoke` by the approve branch of
`DatabaseAgent.approve_sql`: the ticket's snapshot with
`human_approved=True` and `requires_human_approval=False`. -/
def approved_resume_state (item : ApprovalItem) : DatabaseGraphState :=
  { item.state with human_approved := true, requires_human_approval := false }

/-- The dictionary returned by `DatabaseAgent.approve_sql`. -/
structure ApproveResult where
  success : Bool
  action : Option String := none
  sql : Option String := none
  comments : Option String := none
  answer : Option String := none
  error : Option String := none
deriving DecidableEq, Repr

/-- `DatabaseAgent.approve_sql`: bounds-check the index, then approve
(resume the graph on the approved snapshot) or reject; either decision pops
the addressed ticket.  Out-of-range indices (negative or past the end)
return the invalid-index failure and leave the queue untouched. -/
def approve_sql (env : Env) (now : String) (queue : List ApprovalItem)
    (approval_index : Int) (approve : Bool) (comments : String) :
    ApproveResult × List ApprovalItem :=
  if h : 0 ≤ approval_index ∧ approval_index.toNat < queue.length then
    let item := queue.get ⟨approval_index.toNat, h.2⟩
    if approve then
      let resumed := run_graph env now (approved_resume_state item)
      ({ success := true, action := some "approved", sql := some item.sql,
         comments := some comments,
         answer := some ((resumed.map fun r => r.1.final_answer).getD "") },
       queue.eraseIdx approval_index.toNat)
    else
      ({ success := true, action := some "rejected", sql := some item.sql,
         comments := some comments,
         answer := some ("SQL执行被拒绝: " ++
           (if comments ≠ "" then comments else "未通过人工审核")) },
       queue.eraseIdx approval_index.toNat)
  else
    ({ success := false,
       error := some ("无效的审核索引: " ++ toString approval_index) }, queue)

/-! ## Spec-side definition for the classification claim -/

/-- Modelled from the spec: the "leading verb" of a statement — its first
whitespace-delimited token, upper-cased.  Used only to compare the spec's
leading-verb classification rule against the source's containment-based
`detect_sql_type`. -/
def spec_leading_verb (sql : String) : String :=
  pyUpper ((pySplit sql).headD "")

/-! ## Concrete collaborator environments used by witnesses and
counterexamples -/

/-- A benign environment: introspection succeeds, the model answers
`SELECT 1;`, correction echoes the input, the probe accepts, the engine
returns an empty row set. -/
def benign_env : Env :=
  { get_table_metadata := fun _ => .ok "snapshot"
    schema_summary := fun m => "摘要: " ++ m
    generate_llm := fun _ => .ok "SELECT 1;"
    correct_llm := fun sql _ => .ok sql
    probe := fun _ => none
    explain_rows := fun _ => some 0
    run_query := fun _ => .ok {} }

/-- The benign environment with a model that emits a deny-listed DDL
statement. -/
def drop_table_env : Env :=
  { benign_env with generate_llm := fun _ => .ok "DROP TABLE users;" }

/-- The benign environment with a model that emits an `INSERT` and an engine
returning one row. -/
def insert_env : Env :=
  { benign_env with
    generate_llm := fun _ => .ok "INSERT INTO users (username) VALUES ('u');"
    run_query := fun _ => .ok { columns := ["id"], rows := [[("id", "1")]] } }

/-- The benign environment with an engine that returns 1001 rows for any
statement. -/
def wide_result_env : Env :=
  { benign_env with
    run_query := fun _ =>
      .ok { columns := ["limit_price"],
            rows := List.replicate 1001 [("limit_price", "1")] } }

/-- A session state carrying a recorded execution error about a mutation
statement awaiting correction (retry budget untouched). -/
def stalled_state : DatabaseGraphState :=
  { generated_sql := "UPDATE t SET a = 1;", sql_error := "boom",
    retry_count := 0, max_retries := 3 }

/-- A pending approval ticket for an Insert statement. -/
def sample_ticket : ApprovalItem :=
  { sql := "INSERT INTO users (username) VALUES ('u');",
    reason := "DML操作需要人工审核", state := {}, timestamp := "t0",
    session_id := "s0" }

/-- A session state whose validated statement awaits human approval. -/
def pending_state : DatabaseGraphState :=
  { generated_sql := "INSERT INTO users (username) VALUES ('u');",
    sql_type := "INSERT", requires_human_approval := true,
    human_approved := false }

/-! ## Frame lemmas: which state fields each node leaves untouched -/

/-- `parse_user_intent` only writes `parsed_intent`. -/
theorem parse_user_intent_frame (s : DatabaseGraphState) :
    (parse_user_intent s).human_approved = s.human_approved ∧
    (parse_user_intent s).retry_count = s.retry_count ∧
    (parse_user_intent s).max_retries = s.max_retries :=
  ⟨rfl, rfl, rfl⟩

/-- `analyze_database_schema` never touches the control-flow fields. -/
theorem analyze_database_schema_frame (env : Env) (s : DatabaseGraphState) :
    (analyze_database_schema env s).human_approved = s.human_approved ∧
    (analyze_database_schema env s).retry_count = s.retry_count ∧
    (analyze_database_schema env s).max_retries = s.max_retries := by
  unfold analyze_database_schema
  dsimp only
  repeat' split
  all_goals exact ⟨rfl, rfl, rfl⟩

/-- `generate_sql_query` never touches the control-flow fields. -/
theorem generate_sql_query_frame (env : Env) (s : DatabaseGraphState) :
    (generate_sql_query env s).human_approved = s.human_approved ∧
    (generate_sql_query env s).retry_count = s.retry_count ∧
    (generate_sql_query env s).max_retries = s.max_retries := by
  unfold generate_sql_query
  dsimp only
  repeat' split
  all_goals exact ⟨rfl, rfl, rfl⟩

/-- `validate_sql_statement` never touches approval/retry bookkeeping other
than `requires_human_approval`. -/
theorem validate_sql_statement_frame (env : Env) (s : DatabaseGraphState) :
    (validate_sql_statement env s).human_approved = s.human_approved ∧
    (validate_sql_statement env s).retry_count = s.retry_count ∧
    (validate_sql_statement env s).max_retries = s.max_retries := by
  unfold validate_sql_statement
  dsimp only
  repeat' split
  all_goals exact ⟨rfl, rfl, rfl⟩

/-- `check_human_approval` only writes `final_answer` (and a node-local
queue). -/
theorem check_human_approval_frame (now : String) (s : DatabaseGraphState) :
    (check_human_approval now s).1.human_approved = s.human_approved ∧
    (check_human_approval now s).1.retry_count = s.retry_count ∧
    (check_human_approval now s).1.max_retries = s.max_retries ∧
    (check_human_approval now s).1.requires_human_approval = s.requires_human_approval := by
  unfold check_human_approval
  dsimp only
  repeat' split
  all_goals exact ⟨rfl, rfl, rfl, rfl⟩

/-- `execute_sql_query` never touches approval/retry bookkeeping. -/
theorem execute_sql_query_frame (env : Env) (s : DatabaseGraphState) :
    (execute_sql_query env s).1.human_approved = s.human_approved ∧
    (execute_sql_query env s).1.retry_count = s.retry_count ∧
    (execute_sql_query env s).1.max_retries = s.max_retries := by
  unfold execute_sql_query
  dsimp only
  repeat' split
  all_goals exact ⟨rfl, rfl, rfl⟩

/-- `self_correction_loop` preserves `human_approved` and `max_retries`. -/
theorem self_correction_loop_frame (env : Env) (s : DatabaseGraphState) :
    (self_correction_loop env s).human_approved = s.human_approved ∧
    (self_correction_loop env s).max_retries = s.max_retries := by
  unfold self_correction_loop
  dsimp only
  repeat' split
  all_goals exact ⟨rfl, rfl⟩

/-- `finalize_response` never touches approval/retry bookkeeping. -/
theorem finalize_response_frame (s : DatabaseGraphState) :
    (finalize_response s).human_approved = s.human_approved ∧
    (finalize_response s).retry_count = s.retry_count ∧
    (finalize_response s).max_retries = s.max_retries := by
  unfold finalize_response
  dsimp only
  repeat' split
  all_goals exact ⟨rfl, rfl, rfl⟩

/-! ## Characterisations of the routers and of the correction node -/

/-- The retry route fires exactly when an error is recorded and retries
remain. -/
theorem should_retry_sql_retry_iff (s : DatabaseGraphState) :
    should_retry_sql s = "retry" ↔
      (has_sql_error s = true ∧ s.retry_count < s.max_retries) := by
  rcases Bool.eq_false_or_eq_true (has_sql_error s) with hb | hb
  · simp [should_retry_sql, hb]
  · by_cases hr : s.retry_count < s.max_retries
    · simp [should_retry_sql, hb, hr]
    · simp [should_retry_sql, hb, hr]

/-- The approval route fires exactly when approval is required but not yet
granted. -/
theorem should_require_human_approval_iff (s : DatabaseGraphState) :
    should_require_human_approval s = "require_approval" ↔
      (s.requires_human_approval = true ∧ s.human_approved = false) := by
  rcases Bool.eq_false_or_eq_true s.requires_human_approval with h1 | h1 <;>
    rcases Bool.eq_false_or_eq_true s.human_approved with h2 | h2 <;>
      simp [should_require_human_approval, h1, h2]

/-- When the retry route fires, the correction node consumes exactly one
retry. -/
theorem self_correction_loop_retry (env : Env) (s : DatabaseGraphState)
    (h1 : has_sql_error s = true) (h2 : s.retry_count < s.max_retries) :
    (self_correction_loop env s).retry_count = s.retry_count + 1 := by
  unfold self_correction_loop
  rw [if_neg (by omega), if_pos h1]
  dsimp only
  split <;> rfl

/-! ## Totality and retry-bound of the correction loop -/

/-- One pass through the execute phase: provided the loop continuation
completes on the one-higher retry count, the phase completes, preserves
`max_retries`, and keeps the retry counter below
`max retry_count max_retries`. -/
theorem run_exec_phase_total (env : Env) (sv : DatabaseGraphState)
    (recur : DatabaseGraphState → Option RunOutcome)
    (hrec : sv.retry_count < sv.max_retries →
      ∀ s' : DatabaseGraphState, s'.max_retries = sv.max_retries →
        s'.retry_count = sv.retry_count + 1 →
        ∃ r : RunOutcome, recur s' = some r ∧ r.1.max_retries = s'.max_retries ∧
          r.1.retry_count ≤ max s'.retry_count s'.max_retries) :
    ∃ r : RunOutcome, run_exec_phase env sv recur = some r ∧
      r.1.max_retries = sv.max_retries ∧
      r.1.retry_count ≤ max sv.retry_count sv.max_retries := by
  have hx := execute_sql_query_frame env sv
  by_cases hr : should_retry_sql (execute_sql_query env sv).1 = "retry"
  · have hcond := (should_retry_sql_retry_iff _).mp hr
    have hlt : sv.retry_count < sv.max_retries := by
      rw [hx.2.1, hx.2.2] at hcond; exact hcond.2
    have hsc_retry :
        (self_correction_loop env (execute_sql_query env sv).1).retry_count =
          sv.retry_count + 1 := by
      rw [self_correction_loop_retry env _ hcond.1 hcond.2, hx.2.1]
    have hsc_max :
        (self_correction_loop env (execute_sql_query env sv).1).max_retries =
          sv.max_retries := by
      rw [(self_correction_loop_frame env _).2, hx.2.2]
    obtain ⟨r, hrun, hmax, hretry⟩ :=
      hrec hlt (self_correction_loop env (execute_sql_query env sv).1) hsc_max hsc_retry
    refine ⟨(r.1, (execute_sql_query env sv).2 ++ r.2.1, r.2.2), ?_, ?_, ?_⟩
    · simp only [run_exec_phase]
      rw [if_pos hr, hrun]
    · show r.1.max_retries = sv.max_retries
      rw [hmax, hsc_max]
    · show r.1.retry_count ≤ max sv.retry_count sv.max_retries
      rw [hsc_retry, hsc_max] at hretry
      omega
  · refine ⟨(finalize_response (execute_sql_query env sv).1,
        (execute_sql_query env sv).2, []), ?_, ?_, ?_⟩
    · simp only [run_exec_phase]
      rw [if_neg hr]
    · show (finalize_response (execute_sql_query env sv).1).max_retries = sv.max_retries
      rw [(finalize_response_frame _).2.2, hx.2.2]
    · show (finalize_response (execute_sql_query env sv).1).retry_count ≤
        max sv.retry_count sv.max_retries
      rw [(finalize_response_frame _).2.1, hx.2.1]
      omega

/-- With fuel exceeding the remaining retry budget, the loop always
completes, preserves `max_retries`, and bounds the final retry counter. -/
theorem run_from_validate_total (env : Env) (now : String) :
    ∀ (fuel : Nat) (s : DatabaseGraphState),
      s.max_retries - s.retry_count < fuel →
      ∃ r : RunOutcome, run_from_validate env now fuel s = some r ∧
        r.1.max_retries = s.max_retries ∧
        r.1.retry_count ≤ max s.retry_count s.max_retries := by
  intro fuel
  induction fuel with
  | zero => intro s h; omega
  | succ fuel ih =>
    intro s h
    have hv := validate_sql_statement_frame env s
    have hrec : ∀ sv : DatabaseGraphState,
        sv.retry_count = s.retry_count → sv.max_retries = s.max_retries →
        sv.retry_count < sv.max_retries →
        ∀ s' : DatabaseGraphState, s'.max_retries = sv.max_retries →
          s'.retry_count = sv.retry_count + 1 →
          ∃ r : RunOutcome, run_from_validate env now fuel s' = some r ∧
            r.1.max_retries = s'.max_retries ∧
            r.1.retry_count ≤ max s'.retry_count s'.max_retries := by
      intro sv hvr hvm hlt s' hmax' hretry'
      exact ih s' (by omega)
    by_cases hreq :
        should_require_human_approval (validate_sql_statement env s) = "require_approval"
    · have hcond := (should_require_human_approval_iff _).mp hreq
      have hch := check_human_approval_frame now (validate_sql_statement env s)
      have happ :
          (check_human_approval now (validate_sql_statement env s)).1.human_approved
            = false := by
        rw [hch.1]; exact hcond.2
      refine ⟨((check_human_approval now (validate_sql_statement env s)).1, [],
          (check_human_approval now (validate_sql_statement env s)).2), ?_, ?_, ?_⟩
      · simp only [run_from_validate]
        rw [if_pos hreq, if_neg (by simp [happ])]
      · show (check_human_approval now (validate_sql_statement env s)).1.max_retries
          = s.max_retries
        rw [hch.2.2.1, hv.2.2]
      · show (check_human_approval now (validate_sql_statement env s)).1.retry_count
          ≤ max s.retry_count s.max_retries
        rw [hch.2.1, hv.2.1]
        omega
    · obtain ⟨r, hrun, hmax, hretry⟩ :=
        run_exec_phase_total env (validate_sql_statement env s)
          (fun s' => run_from_validate env now fuel s')
          (hrec (validate_sql_statement env s) hv.2.1 hv.2.2)
      refine ⟨r, ?_, ?_, ?_⟩
      · simp only [run_from_validate]
        rw [if_neg hreq, hrun]
      · rw [hmax, hv.2.2]
      · rw [hv.2.1, hv.2.2] at hretry
        exact hretry

/-! ## The claims -/

set_option maxRecDepth 10000

/-- C1: the spec says statements matching the security deny-list are never
executed by the workflow.  The validator does mark them invalid (first two
conjuncts), but the post-validation routing consults only the approval
flags and `execute_sql_query` has no validity guard: on a full run in which
the model produces `DROP TABLE users;` (whose detected kind is not
Insert/Update/Delete, so no approval is required), the deny-listed statement
is submitted to the engine — the trace of submitted statements contains it. -/
theorem c1_denylisted_statement_reaches_engine :
    check_sql_security "DROP TABLE users;" ≠ [] ∧
    (validate_sql drop_table_env "DROP TABLE users;" "DDL").is_valid = false ∧
    ((run_graph drop_table_env "t0" (initial_ask_state "show all data" "s1" "" true)).map
        (fun r => (r.2.1.contains "DROP TABLE users;", r.1.requires_human_approval)))
      = some (true, false) := by
  exact ⟨by decide, by decide, by decide⟩

/-- C2 counterexample: `SQLExecutor.execute_sql` executes an Insert-kind
statement although no approval was ever granted — the method takes no
approval input and performs no approval check of its own, refuting the
claim that the Executor itself refuses unapproved mutations. -/
theorem c2_counterexample_executor_executes_unapproved_insert :
    detect_sql_type "INSERT INTO users (username) VALUES ('u');" = "INSERT" ∧
    (execute_sql insert_env "INSERT INTO users (username) VALUES ('u');" 1000).2
      = ["INSERT INTO users (username) VALUES ('u');"] ∧
    (execute_sql insert_env "INSERT INTO users (username) VALUES ('u');" 1000).1.success
      = true := by
  exact ⟨by decide, by decide, by decide⟩

/-- C2 (amended): the unapproved-mutation refusal is performed by the
workflow node `execute_sql_query`, which skips execution whenever
`requires_human_approval` is set and `human_approved` is not, while
`SQLExecutor.execute_sql` itself always submits exactly one statement to the
engine. -/
theorem c2_amended_approval_gate_is_workflow_node (env : Env)
    (s : DatabaseGraphState) (h1 : s.requires_human_approval = true)
    (h2 : s.human_approved = false) :
    execute_sql_query env s = (s, []) ∧
    ∀ sql : String, ∀ lim : Nat, (execute_sql env sql lim).2.length = 1 := by
  constructor
  · unfold execute_sql_query
    split
    · rfl
    · rw [if_pos (by simp [h1, h2])]
  · intro sql lim
    unfold execute_sql
    dsimp only
    split <;> rfl

/-- C2 witness: the amended gate at a concrete pending mutation, and a
concrete always-submitting execution. -/
theorem c2_amended_witness :
    execute_sql_query benign_env pending_state = (pending_state, []) ∧
    (execute_sql benign_env "DELETE FROM t;" 1000).2.length = 1 :=
  ⟨(c2_amended_approval_gate_is_workflow_node benign_env pending_state rfl rfl).1,
   (c2_amended_approval_gate_is_workflow_node benign_env pending_state rfl rfl).2
     "DELETE FROM t;" 1000⟩

/-- C3 counterexample: the input "add a bonus row" contains the mutation
verb "add", yet the finished session has `requiresApproval = false` — the
session flag is overwritten by the validator from the detected kind of the
generated SQL (`SELECT 1;` here), so the classification is not
unconditional. -/
theorem c3_counterexample_mutation_verb_without_approval :
    strContains (pyLower "add a bonus row") "add" = true ∧
    ((run_graph benign_env "t3" (initial_ask_state "add a bonus row" "s3" "" true)).map
        (fun r => r.1.requires_human_approval)) = some false := by
  exact ⟨by decide, by decide⟩

/-- C3 (amended): a mutation verb forces `action="modify"` and the
intent-level `requires_human_approval=True` only when no query keyword
matches first; the session-level `requiresApproval` is determined solely by
the validator: after validation it holds exactly when the containment-based
detected kind of the generated SQL is Insert/Update/Delete (the intent-level
flag is never propagated to the session). -/
theorem c3_amended_intent_flag_and_validator_flag (env : Env)
    (s t : DatabaseGraphState)
    (hq : anyKeyword (pyLower s.user_input) query_keywords = false)
    (hm : (anyKeyword (pyLower s.user_input) add_keywords
        || anyKeyword (pyLower s.user_input) update_keywords
        || anyKeyword (pyLower s.user_input) delete_keywords) = true)
    (ht : t.generated_sql ≠ "") :
    intent_action (parse_user_intent s) = "modify" ∧
    ((parse_user_intent s).parsed_intent.map (·.requires_human_approval))
      = some (some true) ∧
    ((validate_sql_statement env t).requires_human_approval = true ↔
      validator_detected_type (pyStrip t.generated_sql) ∈
        (["INSERT", "UPDATE", "DELETE"] : List String)) := by
  have hq' : ¬ (anyKeyword (pyLower s.user_input) query_keywords = true) := by
    simp [hq]
  have hbranch : ∃ it : ParsedIntent,
      (parse_user_intent s).parsed_intent = some it ∧
      it.action = "modify" ∧ it.requires_human_approval = some true := by
    unfold parse_user_intent
    dsimp only
    rw [if_neg hq']
    by_cases ha : anyKeyword (pyLower s.user_input) add_keywords = true
    · rw [if_pos ha]
      exact ⟨_, rfl, rfl, rfl⟩
    · rw [if_neg ha]
      by_cases hu : anyKeyword (pyLower s.user_input) update_keywords = true
      · rw [if_pos hu]
        exact ⟨_, rfl, rfl, rfl⟩
      · rw [if_neg hu]
        have hA : anyKeyword (pyLower s.user_input) add_keywords = false := by
          cases hval : anyKeyword (pyLower s.user_input) add_keywords
          · rfl
          · exact absurd hval ha
        have hB : anyKeyword (pyLower s.user_input) update_keywords = false := by
          cases hval : anyKeyword (pyLower s.user_input) update_keywords
          · rfl
          · exact absurd hval hu
        have hd : anyKeyword (pyLower s.user_input) delete_keywords = true := by
          rw [hA, hB] at hm
          simpa using hm
        rw [if_pos hd]
        exact ⟨_, rfl, rfl, rfl⟩
  obtain ⟨it, hit, hact, hreq⟩ := hbranch
  refine ⟨?_, ?_, ?_⟩
  · simp [intent_action, hit, hact]
  · rw [hit]
    simp [hreq]
  · unfold validate_sql_statement
    rw [if_neg ht]
    show (validate_sql env t.generated_sql t.sql_type).requires_human_approval
        = true ↔ _
    unfold validate_sql
    dsimp only
    split
    next he => rw [he]; decide
    next he => simp [decide_eq_true_eq]

/-- C3 witness: the amended statement at a concrete mutation-verb input and
a concrete insert statement. -/
theorem c3_amended_witness :
    intent_action (parse_user_intent { user_input := "add a row" }) = "modify" ∧
    (validate_sql_statement benign_env
        { generated_sql := "INSERT INTO t VALUES (1);" }).requires_human_approval
      = true := by
  have h := c3_amended_intent_flag_and_validator_flag benign_env
    { user_input := "add a row" } { generated_sql := "INSERT INTO t VALUES (1);" }
    (by decide) (by decide) (by decide)
  exact ⟨h.1, h.2.2.mpr (by decide)⟩

/-- C4 counterexample: a Select-kind statement with no limit clause — but
with the substring "LIMIT" inside a column name — is submitted unchanged
(no rewrite), and the materialised result carries all 1001 engine rows,
exceeding the 1000 ceiling. -/
theorem c4_counterexample_ceiling_exceeded :
    detect_sql_type "SELECT limit_price FROM trades;" = "SELECT" ∧
    (execute_sql wide_result_env "SELECT limit_price FROM trades;" 1000).2
      = ["SELECT limit_price FROM trades;"] ∧
    (execute_sql wide_result_env "SELECT limit_price FROM trades;" 1000).1.row_count
      = 1001 := by
  exact ⟨by decide, by decide, by decide⟩

/-- C4 (amended): the Executor appends a limit exactly when the upper-cased
statement contains "SELECT" and does not contain the substring "LIMIT"
(not when its kind is Select and a limit clause is absent), and it
materialises exactly the rows the engine returns — the ceiling holds only
insofar as the engine honours the appended clause. -/
theorem c4_amended_limit_by_substring (env : Env) (sql : String) (lim : Nat)
    (hsel : strContains (pyUpper sql) "SELECT" = true)
    (hnl : strContains (pyUpper sql) "LIMIT" = false) :
    (execute_sql env sql lim).2 = [sql ++ " LIMIT " ++ toString lim] ∧
    ∀ qr : QueryResult,
      env.run_query (sql ++ " LIMIT " ++ toString lim) = .ok qr →
      (execute_sql env sql lim).1.row_count = qr.rows.length := by
  have hcond : (strContains (pyUpper sql) "SELECT"
      && !strContains (pyUpper sql) "LIMIT") = true := by
    rw [hsel, hnl]; rfl
  constructor
  · unfold execute_sql
    dsimp only
    rw [if_pos hcond]
    split <;> rfl
  · intro qr hqr
    unfold execute_sql
    dsimp only
    rw [if_pos hcond, hqr]

/-- C4 witness: the amended statement at a concrete unlimited select against
the empty-result engine. -/
theorem c4_amended_witness :
    (execute_sql benign_env "SELECT id FROM users" 1000).2
      = ["SELECT id FROM users LIMIT 1000"] ∧
    (execute_sql benign_env "SELECT id FROM users" 1000).1.row_count = 0 := by
  have h := c4_amended_limit_by_substring benign_env "SELECT id FROM users" 1000
    (by decide) (by decide)
  refine ⟨h.1, ?_⟩
  rw [h.2 {} rfl]
  rfl

/-- C5: with fuel exceeding the remaining retry budget the correction loop
always completes (termination), any state it finishes in — terminal
`Finalize` or the approval wait — satisfies `retry_count ≤ max_retries`,
and the retry route never fires once the budget is exhausted, so the loop
never re-enters correction at `retry_count = max_retries`. -/
theorem c5_retry_invariant_and_termination (env : Env) (now : String)
    (s : DatabaseGraphState) (fuel : Nat)
    (hinv : s.retry_count ≤ s.max_retries)
    (hfuel : s.max_retries - s.retry_count < fuel) :
    (∃ r : RunOutcome, run_from_validate env now fuel s = some r ∧
        r.1.retry_count ≤ r.1.max_retries) ∧
    (∀ t : DatabaseGraphState, t.max_retries ≤ t.retry_count →
        should_retry_sql t ≠ "retry") := by
  constructor
  · obtain ⟨r, hr, hmax, hretry⟩ := run_from_validate_total env now fuel s hfuel
    exact ⟨r, hr, by omega⟩
  · intro t ht hcontra
    have h := (should_retry_sql_retry_iff t).mp hcontra
    omega

/-- C5 witness: the loop completes on the default session state with fuel
`max_retries + 1`. -/
theorem c5_witness :
    (run_from_validate benign_env "t5" 4 ({} : DatabaseGraphState)).isSome = true := by
  obtain ⟨r, hr, _⟩ := (c5_retry_invariant_and_termination benign_env "t5" {} 4
    (by decide) (by decide)).1
  rw [hr]
  rfl

/-- C6 counterexample: a statement whose leading verb is `INSERT` but which
contains `SELECT` further on (the standard insert-from-select form) is
classified `SELECT`, refuting the leading-verb rule. -/
theorem c6_counterexample_leading_verb_ignored :
    spec_leading_verb "INSERT INTO t SELECT * FROM s;" = "INSERT" ∧
    detect_sql_type "INSERT INTO t SELECT * FROM s;" = "SELECT" := by
  exact ⟨by decide, by decide⟩

/-- C6 (amended): the detected kind is decided by case-insensitive substring
containment (anywhere in the statement), with first match winning by the
precedence SELECT > INSERT > UPDATE > DELETE > DDL > Other; in particular a
statement containing INSERT is classified Insert only when it does not also
contain SELECT, and any statement containing SELECT is classified Select. -/
theorem c6_amended_containment_with_precedence (sql : String)
    (h1 : strContains (pyUpper sql) "SELECT" = false)
    (h2 : strContains (pyUpper sql) "INSERT" = true) :
    detect_sql_type sql = "INSERT" ∧
    (∀ q : String, strContains (pyUpper q) "SELECT" = true →
      detect_sql_type q = "SELECT") := by
  constructor
  · unfold detect_sql_type
    dsimp only
    rw [if_neg (by simp [h1]), if_pos (by simp [h2])]
  · intro q hq
    unfold detect_sql_type
    dsimp only
    rw [if_pos (by simp [hq])]

/-- C6 witness: the amended classification at concrete statements. -/
theorem c6_amended_witness :
    detect_sql_type "INSERT INTO t VALUES (1);" = "INSERT" ∧
    detect_sql_type "SELECT 1;" = "SELECT" := by
  have h := c6_amended_containment_with_precedence "INSERT INTO t VALUES (1);"
    (by decide) (by decide)
  exact ⟨h.1, h.2 "SELECT 1;" (by decide)⟩

/-- C7 counterexample: when the re-synthesized statement is identical to the
prior attempt, the iteration still consumes a retry but does **not** clear
`sqlError` (the echo-correction environment returns the same statement, and
the recorded error "boom" survives), refuting the claim that every taken
iteration clears `sqlError`. -/
theorem c7_counterexample_identical_correction_keeps_error :
    (self_correction_loop benign_env stalled_state).retry_count = 1 ∧
    (self_correction_loop benign_env stalled_state).sql_error = "boom" := by
  exact ⟨by decide, by decide⟩

/-- C7 (amended): every correction iteration taken while
`retry_count < max_retries` with an error present increments `retry_count`
by exactly one; it clears `sqlError` and adopts the corrected statement only
when the correction is nonempty and differs from the prior attempt, and
otherwise leaves `sqlError` and `generated_sql` unchanged (a non-progressing
correction still consumes the retry). -/
theorem c7_amended_retry_consumed_error_cleared_conditionally (env : Env)
    (s : DatabaseGraphState) (hr : s.retry_count < s.max_retries)
    (he : has_sql_error s = true) :
    (self_correction_loop env s).retry_count = s.retry_count + 1 ∧
    self_correction_loop env s =
      (if correct_sql_with_errors env s.generated_sql (correction_error_messages s) ≠ ""
          ∧ correct_sql_with_errors env s.generated_sql (correction_error_messages s)
              ≠ s.generated_sql
       then { s with retry_count := s.retry_count + 1,
                     generated_sql :=
                       correct_sql_with_errors env s.generated_sql
                         (correction_error_messages s),
                     sql_error := "" }
       else { s with retry_count := s.retry_count + 1 }) := by
  have h1 : ¬ s.retry_count ≥ s.max_retries := by omega
  constructor
  · exact self_correction_loop_retry env s he hr
  · unfold self_correction_loop
    rw [if_neg h1, if_pos he]
    rfl

/-- C7 witness: the amended statement at the stalled concrete state. -/
theorem c7_amended_witness :
    (self_correction_loop benign_env stalled_state).retry_count = 0 + 1 :=
  (c7_amended_retry_consumed_error_cleared_conditionally benign_env stalled_state
     (by decide) (by decide)).1

/-- C8: on the insert scenario the session suspends with
`requiresApproval=true` and the node does enqueue a ticket for the pending
mutation — but into a fresh `SQLExecutor` constructed inside the node and
dropped on return (third/fourth mapped components show nothing executed and
the node-local ticket).  The agent's own executor queue, the one
`get_pending_approvals` reads, is untouched by `ask`, so `listPending`
afterwards is empty and the ticket can never be approved. -/
theorem c8_workflow_ticket_invisible_to_agent :
    ((run_graph insert_env "t8" (initial_ask_state "向用户表添加一条新记录" "s8" "" true)).map
        (fun r => (r.1.requires_human_approval, r.1.human_approved, r.2.1,
          r.2.2.map (·.sql))))
      = some (true, false, [], ["INSERT INTO users (username) VALUES ('u');"]) ∧
    (agent_ask insert_env "t8" [] "向用户表添加一条新记录" "s8" true).2 = [] ∧
    get_pending_approvals
        (agent_ask insert_env "t8" [] "向用户表添加一条新记录" "s8" true).2 = [] := by
  exact ⟨by decide, by decide, by decide⟩

/-- C9: a decision on an in-range index succeeds, reports the addressed
ticket's SQL, and removes exactly that ticket; a decision on an out-of-range
index (negative, or at/past the end — including any index once the queue is
empty) fails with the invalid-index outcome and leaves the queue unchanged,
so each ticket admits exactly one decision. -/
theorem c9_exactly_once_and_invalid_index (env : Env) (now : String)
    (queue : List ApprovalItem) (idx : Int) (approve : Bool) (comments : String) :
    (0 ≤ idx ∧ idx.toNat < queue.length →
      (approve_sql env now queue idx approve comments).1.success = true ∧
      (approve_sql env now queue idx approve comments).1.sql
        = (queue.get? idx.toNat).map (·.sql) ∧
      (approve_sql env now queue idx approve comments).2 = queue.eraseIdx idx.toNat) ∧
    (¬(0 ≤ idx ∧ idx.toNat < queue.length) →
      (approve_sql env now queue idx approve comments).1.success = false ∧
      (approve_sql env now queue idx approve comments).1.error
        = some ("无效的审核索引: " ++ toString idx) ∧
      (approve_sql env now queue idx approve comments).2 = queue) := by
  constructor
  · intro h
    unfold approve_sql
    rw [dif_pos h]
    dsimp only
    rw [List.get?_eq_get h.2]
    split <;> exact ⟨rfl, rfl, rfl⟩
  · intro h
    unfold approve_sql
    rw [dif_neg h]
    exact ⟨rfl, rfl, rfl⟩

/-- C9 witness: approving index 0 of a one-ticket queue succeeds and empties
the queue; deciding index 0 on the now-empty queue fails and changes
nothing. -/
theorem c9_witness :
    (approve_sql benign_env "t9" [sample_ticket] 0 true "ok").1.success = true ∧
    (approve_sql benign_env "t9" [sample_ticket] 0 true "ok").2 = [] ∧
    (approve_sql benign_env "t9" [] 0 true "ok").1.success = false ∧
    (approve_sql benign_env "t9" [] 0 true "ok").2 = [] := by
  have h1 := (c9_exactly_once_and_invalid_index benign_env "t9" [sample_ticket]
    0 true "ok").1 (by decide)
  have h2 := (c9_exactly_once_and_invalid_index benign_env "t9" []
    0 true "ok").2 (by decide)
  refine ⟨h1.1, ?_, h2.1, h2.2.2⟩
  rw [h1.2.2]
  rfl

/-- C10: `human_approved` is `false` in the initial ask state, every node of
the workflow pipeline preserves it verbatim, and the only modelled operation
producing a state with `human_approved = true` is the approve decision's
resumed snapshot (`approve_sql` with `approve = true`). -/
theorem c10_human_approved_only_from_approval :
    (∀ q sid cs : String, ∀ dbe : Bool,
      (initial_ask_state q sid cs dbe).human_approved = false) ∧
    (∀ s, (parse_user_intent s).human_approved = s.human_approved) ∧
    (∀ env : Env, ∀ s, (analyze_database_schema env s).human_approved = s.human_approved) ∧
    (∀ env : Env, ∀ s, (generate_sql_query env s).human_approved = s.human_approved) ∧
    (∀ env : Env, ∀ s, (validate_sql_statement env s).human_approved = s.human_approved) ∧
    (∀ now : String, ∀ s, (check_human_approval now s).1.human_approved = s.human_approved) ∧
    (∀ env : Env, ∀ s, (execute_sql_query env s).1.human_approved = s.human_approved) ∧
    (∀ env : Env, ∀ s, (self_correction_loop env s).human_approved = s.human_approved) ∧
    (∀ s, (finalize_response s).human_approved = s.human_approved) ∧
    (∀ item : ApprovalItem, (approved_resume_state item).human_approved = true) := by
  refine ⟨fun _ _ _ _ => rfl, fun s => (parse_user_intent_frame s).1,
    fun env s => (analyze_database_schema_frame env s).1,
    fun env s => (generate_sql_query_frame env s).1,
    fun env s => (validate_sql_statement_frame env s).1,
    fun now s => (check_human_approval_frame now s).1,
    fun env s => (execute_sql_query_frame env s).1,
    fun env s => (self_correction_loop_frame env s).1,
    fun s => (finalize_response_frame s).1,
    fun _ => rfl⟩

end FintechAgent
